import Mathlib

/-!
Verification of the progressive bonus calculator (bonusCalc).

The repository has two JavaScript variants:
* `part_000` — the fixed-threshold variant with `INITIAL_TIER_CONFIG`
  (three thresholds, three rates, the last rate reused for overflow);
* `App.js` — the salary-relative variant with `TIER_MULTIPLIERS`,
  `INITIAL_RATES` (four rates) and `dynamicTierConfig`.

Both variants share a textually identical `calculateProgressiveBonus`.
JavaScript numbers are modelled as exact rationals (the spec calls the
input "a real number"); user-entered values, which arrive as strings and
are coerced with `Number(x) || 0` or `parseFloat`, are modelled by
`InputValue` / `Option ℚ` below.
-/

/-- The scheme selector: the JS code passes the string `'monthly'` or
`'quarterly'` and looks the scheme up as `config[type]`. -/
inductive SchemeType where
  | monthly
  | quarterly
deriving DecidableEq

/-- One scheme's tier table: `thresholds` (upper bounds of the bounded
tiers) and `rates`, exactly the two arrays destructured by
`calculateProgressiveBonus` from `config[type]`. -/
structure TierConfig where
  thresholds : List ℚ
  rates : List ℚ
deriving DecidableEq

/-- A full configuration object `{ monthly: …, quarterly: … }`. -/
structure BonusConfig where
  monthly : TierConfig
  quarterly : TierConfig
deriving DecidableEq

/-- The JS property access `config[type]`. -/
def BonusConfig.get (config : BonusConfig) : SchemeType → TierConfig
  | .monthly => config.monthly
  | .quarterly => config.quarterly

/-- The `for` loop of `calculateProgressiveBonus` plus the overflow step.
Recursion over `thresholds`; `rates` is consumed in step with it, so
`rates.headI` is the JS `rates[i]` (every configuration in the repository
has at least as many rates as thresholds, so the index is in range).
After the loop — equivalently when `thresholds` is exhausted, the early
`break` on `remainingPerf ≤ 0` being the `0`-returning guard — the JS
code adds `remainingPerf * rates[rates.length - 1]` when
`remainingPerf > 0`; that last rate is passed in as `lastRate`. -/
def tierLoop (lastRate : ℚ) : List ℚ → List ℚ → ℚ → ℚ → ℚ
  | [], _, remainingPerf, _ =>
      if remainingPerf > 0 then remainingPerf * lastRate else 0
  | upperBound :: ts, rates, remainingPerf, lowerBound =>
      if remainingPerf ≤ 0 then 0
      else
        let rate := rates.headI
        let tierRange := upperBound - lowerBound
        let amountInTier := min remainingPerf tierRange
        amountInTier * rate +
          tierLoop lastRate ts rates.tail (remainingPerf - amountInTier) upperBound

/-- `calculateProgressiveBonus(performance, type, config)` — identical in
both variants.  `bonus` starts at 0, `remainingPerf` at `performance`,
`lowerBound` at 0; the loop walks the thresholds and the overflow above
the highest threshold is paid at `rates[rates.length - 1]`
(`List.getLastD … 0`; every configuration in the repository has a
nonempty rates array). -/
def calculateProgressiveBonus (performance : ℚ) (type : SchemeType)
    (config : BonusConfig) : ℚ :=
  let tc := config.get type
  tierLoop (tc.rates.getLastD 0) tc.thresholds tc.rates performance 0

/-- `INITIAL_TIER_CONFIG` of the fixed-threshold variant (`part_000`,
lines 16–25): three thresholds and only three rates per scheme. -/
def INITIAL_TIER_CONFIG : BonusConfig where
  monthly := { thresholds := [120000, 200000, 400000], rates := [0.03, 0.05, 0.10] }
  quarterly := { thresholds := [360000, 600000, 1200000], rates := [0.03, 0.05, 0.10] }

/-- `TIER_MULTIPLIERS` of the salary-relative variant (`App.js` line 41). -/
def TIER_MULTIPLIERS : List ℚ := [3, 5, 10]

/-- The rates object `{ monthly: […], quarterly: […] }` of the
salary-relative variant. -/
structure TierRates where
  monthly : List ℚ
  quarterly : List ℚ
deriving DecidableEq

/-- The JS property access `tierRates[type]`. -/
def TierRates.get (tr : TierRates) : SchemeType → List ℚ
  | .monthly => tr.monthly
  | .quarterly => tr.quarterly

/-- `INITIAL_RATES` (`App.js` lines 42–45): four rates per scheme. -/
def INITIAL_RATES : TierRates where
  monthly := [0.03, 0.05, 0.10, 0.15]
  quarterly := [0.03, 0.05, 0.10, 0.15]

/-- A user-supplied field value as it reaches `Number(x) || 0`:
`numeric q` is a value that `Number` parses to `q` (including a number
already stored as such), `empty` the empty string (`Number('') = 0`),
`malformed` any string `Number` turns into `NaN`. -/
inductive InputValue where
  | numeric (q : ℚ)
  | empty
  | malformed
deriving DecidableEq

/-- The coercion `Number(x) || 0`: `NaN` (and the empty string's 0) fall
through to `0`; a parsed number `q` is kept (`q = 0` is falsy but
`0 || 0` is still `0`). -/
def numberOr0 : InputValue → ℚ
  | .numeric q => q
  | .empty => 0
  | .malformed => 0

/-- `dynamicTierConfig` (`App.js` lines 228–236): coerce the stored
salary with `Number(monthlySalary) || 0`, derive monthly thresholds as
`TIER_MULTIPLIERS.map(m => m * salary)` and quarterly thresholds as
`monthlyThresholds.map(t => t * 3)`, and pair them with the live rates. -/
def dynamicTierConfig (monthlySalary : InputValue) (tierRates : TierRates) :
    BonusConfig :=
  let salary := numberOr0 monthlySalary
  let monthlyThresholds := TIER_MULTIPLIERS.map (fun m => m * salary)
  let quarterlyThresholds := monthlyThresholds.map (fun t => t * 3)
  { monthly := { thresholds := monthlyThresholds, rates := tierRates.monthly },
    quarterly := { thresholds := quarterlyThresholds, rates := tierRates.quarterly } }

/-- `handleRateChange(type, index, newRate)` (`App.js` lines 238–244):
copy the selected scheme's rates array and overwrite position `index`
(`List.set`; every call site passes an in-range index 0–3). -/
def handleRateChange (type : SchemeType) (index : ℕ) (newRate : ℚ)
    (prev : TierRates) : TierRates :=
  match type with
  | .monthly => { prev with monthly := prev.monthly.set index newRate }
  | .quarterly => { prev with quarterly := prev.quarterly.set index newRate }

/-- The monthly half of the results object set by the calculation
effect: the three per-month bonuses and their sum. -/
structure MonthlyResult where
  bonus1 : ℚ
  bonus2 : ℚ
  bonus3 : ℚ
  total : ℚ
deriving DecidableEq

/-- The quarterly half of the results object: summed performance and the
single quarterly bonus. -/
structure QuarterlyResult where
  totalPerf : ℚ
  total : ℚ
deriving DecidableEq

/-- The `results` object `{ monthly: …, quarterly: … }`. -/
structure Results where
  monthly : MonthlyResult
  quarterly : QuarterlyResult
deriving DecidableEq

/-- `calculateResults` (`part_000` lines 116–133, and the identical
computation in the `App.js` effect at lines 117–137): coerce each field
with `Number(x) || 0`, call the calculator per month on the monthly
scheme, sum, and call it once on the raw sum under the quarterly
scheme. -/
def calculateResults (perf1 perf2 perf3 : InputValue)
    (tierConfig : BonusConfig) : Results :=
  let p1 := numberOr0 perf1
  let p2 := numberOr0 perf2
  let p3 := numberOr0 perf3
  let bonus1 := calculateProgressiveBonus p1 .monthly tierConfig
  let bonus2 := calculateProgressiveBonus p2 .monthly tierConfig
  let bonus3 := calculateProgressiveBonus p3 .monthly tierConfig
  let totalMonthlyBonus := bonus1 + bonus2 + bonus3
  let totalQuarterlyPerf := p1 + p2 + p3
  let quarterlyBonus :=
    calculateProgressiveBonus totalQuarterlyPerf .quarterly tierConfig
  { monthly := { bonus1 := bonus1, bonus2 := bonus2, bonus3 := bonus3,
                 total := totalMonthlyBonus },
    quarterly := { totalPerf := totalQuarterlyPerf, total := quarterlyBonus } }

/-- The three recommendation banners: quarterly strictly better (with the
difference), monthly strictly better (with the absolute difference), or
exactly equal. -/
inductive Recommendation where
  | quarterlyBetter (amount : ℚ)
  | monthlyBetter (amount : ℚ)
  | equal
deriving DecidableEq

/-- The `recommendation` memo (`part_000` lines 145–164, `App.js` lines
140–146): `diff = quarterly.total - monthly.total`; strictly positive
picks the quarterly banner with `diff`, strictly negative the monthly
banner with `Math.abs(diff)`, otherwise the equal banner. -/
def recommendation (results : Results) : Recommendation :=
  let diff := results.quarterly.total - results.monthly.total
  if diff > 0 then .quarterlyBetter diff
  else if diff < 0 then .monthlyBetter |diff|
  else .equal

namespace TierTable

/-- `handleInputChange` of `TierTable` (`App.js` lines 75–80, `part_000`
lines 64–69): `parseFloat` the field text (`none` models `NaN`); only
when the result is a number `≥ 0` is `onRateChange(type, index, rate/100)`
fired, otherwise the state is left untouched. -/
def handleInputChange (type : SchemeType) (index : ℕ) (value : Option ℚ)
    (prev : TierRates) : TierRates :=
  match value with
  | none => prev
  | some newRate =>
      if 0 ≤ newRate then handleRateChange type index (newRate / 100) prev
      else prev

end TierTable

/-- A user edit of a rate cell: scheme, row index, and the `parseFloat`
result of the entered text. -/
def RateEdit : Type := SchemeType × ℕ × Option ℚ

/-- A sequence of rate-cell edits applied in order through
`TierTable.handleInputChange`. -/
def applyEdits (edits : List RateEdit) (start : TierRates) : TierRates :=
  edits.foldl (fun tr e => TierTable.handleInputChange e.1 e.2.1 e.2.2 tr) start

/-- All rates of both schemes are non-negative. -/
def allRatesNonneg (tr : TierRates) : Prop :=
  (∀ r ∈ tr.monthly, 0 ≤ r) ∧ (∀ r ∈ tr.quarterly, 0 ≤ r)

instance : DecidablePred allRatesNonneg := fun tr =>
  inferInstanceAs (Decidable ((∀ r ∈ tr.monthly, 0 ≤ r) ∧ ∀ r ∈ tr.quarterly, 0 ≤ r))

/-! ## Helper lemmas -/

/-- A non-positive performance never enters the loop body and never takes
the overflow branch: the bonus is 0. -/
theorem tierLoop_nonpos (lastRate : ℚ) (ts rates : List ℚ) (r lowerBound : ℚ)
    (hr : r ≤ 0) : tierLoop lastRate ts rates r lowerBound = 0 := by
  cases ts with
  | nil => simp [tierLoop, not_lt.mpr hr]
  | cons t ts => simp [tierLoop, hr]

/-- With non-negative rates and thresholds that ascend from the current
lower bound, the loop's result is non-negative. -/
theorem tierLoop_nonneg (lastRate : ℚ) (ts : List ℚ) (rates : List ℚ)
    (r lowerBound : ℚ) (hlast : 0 ≤ lastRate) (hrates : ∀ x ∈ rates, 0 ≤ x)
    (hchain : List.Chain (· ≤ ·) lowerBound ts) :
    0 ≤ tierLoop lastRate ts rates r lowerBound := by
  induction ts generalizing rates r lowerBound with
  | nil =>
      by_cases h : r > 0
      · simpa [tierLoop, h] using mul_nonneg (le_of_lt h) hlast
      · simp [tierLoop, h]
  | cons t ts ih =>
      rcases hchain with _ | ⟨hlb, hchain⟩
      by_cases h : r ≤ 0
      · simp [tierLoop, h]
      · push_neg at h
        have hrange : (0 : ℚ) ≤ t - lowerBound := by linarith
        have hamount : 0 ≤ min r (t - lowerBound) :=
          le_min (le_of_lt h) hrange
        have hhead : 0 ≤ rates.headI := by
          cases rates with
          | nil => exact le_rfl
          | cons a l => exact hrates a (List.mem_cons_self a l)
        have htail : ∀ x ∈ rates.tail, 0 ≤ x := fun x hx =>
          hrates x (List.mem_of_mem_tail hx)
        have := ih rates.tail (r - min r (t - lowerBound)) t htail hchain
        simp only [tierLoop, if_neg (not_le.mpr h)]
        exact add_nonneg (mul_nonneg hamount hhead) this

/-- Monotonicity of the loop in the remaining performance. -/
theorem tierLoop_mono (lastRate : ℚ) (ts : List ℚ) (rates : List ℚ)
    (r r' lowerBound : ℚ) (hlast : 0 ≤ lastRate)
    (hrates : ∀ x ∈ rates, 0 ≤ x)
    (hchain : List.Chain (· ≤ ·) lowerBound ts) (hrr : r ≤ r') :
    tierLoop lastRate ts rates r lowerBound ≤
      tierLoop lastRate ts rates r' lowerBound := by
  induction ts generalizing rates r r' lowerBound with
  | nil =>
      by_cases h : r > 0
      · have h' : r' > 0 := lt_of_lt_of_le h hrr
        simpa [tierLoop, h, h'] using mul_le_mul_of_nonneg_right hrr hlast
      · rw [tierLoop, if_neg h]
        by_cases h' : r' > 0
        · simpa [tierLoop, h'] using mul_nonneg (le_of_lt h') hlast
        · simp [tierLoop, h']
  | cons t ts ih =>
      rcases hchain with _ | ⟨hlb, hchain⟩
      by_cases h : r ≤ 0
      · rw [tierLoop_nonpos lastRate (t :: ts) rates r lowerBound h]
        exact tierLoop_nonneg lastRate (t :: ts) rates r' lowerBound hlast
          hrates (List.Chain.cons hlb hchain)
      · push_neg at h
        have h' : 0 < r' := lt_of_lt_of_le h hrr
        have hrange : (0 : ℚ) ≤ t - lowerBound := by linarith
        have hhead : 0 ≤ rates.headI := by
          cases rates with
          | nil => exact le_rfl
          | cons a l => exact hrates a (List.mem_cons_self a l)
        have htail : ∀ x ∈ rates.tail, 0 ≤ x := fun x hx =>
          hrates x (List.mem_of_mem_tail hx)
        have hamount : min r (t - lowerBound) ≤ min r' (t - lowerBound) :=
          min_le_min hrr le_rfl
        have hrem : r - min r (t - lowerBound) ≤ r' - min r' (t - lowerBound) := by
          rcases le_total r (t - lowerBound) with hc | hc
          · rw [min_eq_left hc]
            have : min r' (t - lowerBound) ≤ r' := min_le_left _ _
            linarith
          · rw [min_eq_right hc, min_eq_right (le_trans hc hrr)]
            linarith
        simp only [tierLoop, if_neg (not_le.mpr h), if_neg (not_le.mpr h')]
        exact add_le_add (mul_le_mul_of_nonneg_right hamount hhead)
          (ih rates.tail (r - min r (t - lowerBound))
            (r' - min r' (t - lowerBound)) t htail hchain hrem)

/-- The last element with default of a nonempty list is a member. -/
theorem getLastD_mem_of_ne_nil (l : List ℚ) (d : ℚ) (h : l ≠ []) :
    l.getLastD d ∈ l := by
  induction l with
  | nil => exact absurd rfl h
  | cons a l ih =>
      cases l with
      | nil => simp
      | cons b l => simpa using Or.inr (ih (by simp))

/-- A non-positive performance yields bonus 0 for any configuration and
scheme. -/
theorem calcBonus_nonpos (p : ℚ) (type : SchemeType) (config : BonusConfig)
    (hp : p ≤ 0) : calculateProgressiveBonus p type config = 0 :=
  tierLoop_nonpos _ _ _ _ _ hp

/-! ## Claims -/

/-- C1: the spec's scenario claims that for the reduced-tier configuration
(thresholds `[120000, 200000, 400000]`, rates `[0.03, 0.05, 0.10]`, top
rate reused for overflow) performance 450000 yields 27600.  The code
disagrees: the 50000 overflow above 400000 is paid at the reused top rate
0.10, so the bonus is 32600. -/
theorem C1_counterexample :
    calculateProgressiveBonus 450000 .monthly INITIAL_TIER_CONFIG ≠ 27600 := by
  norm_num [calculateProgressiveBonus, BonusConfig.get, INITIAL_TIER_CONFIG,
    tierLoop, min_def]

/-- C1 (amended): for the reduced-tier configuration, performance 450000
yields exactly 32600 = 120000·0.03 + 80000·0.05 + 200000·0.10 +
50000·0.10. -/
theorem C1_reduced_tier_450000 :
    calculateProgressiveBonus 450000 .monthly INITIAL_TIER_CONFIG = 32600 := by
  norm_num [calculateProgressiveBonus, BonusConfig.get, INITIAL_TIER_CONFIG,
    tierLoop, min_def]

/-- C2: for the salary-relative variant at the default salary 40000
(thresholds `[120000, 200000, 400000]` via multipliers 3, 5, 10) and
rates `[0.03, 0.05, 0.10, 0.15]`, performance 500000 yields exactly
42600. -/
theorem C2_four_tier_500000 :
    calculateProgressiveBonus 500000 .monthly
      (dynamicTierConfig (.numeric 40000) INITIAL_RATES) = 42600 := by
  norm_num [calculateProgressiveBonus, BonusConfig.get, dynamicTierConfig,
    TIER_MULTIPLIERS, INITIAL_RATES, numberOr0, tierLoop, min_def]

/-- C3: more performance never yields less bonus.  With thresholds
strictly ascending from 0, rates one longer than thresholds and all
non-negative, the calculator is monotone in `performance`. -/
theorem C3_monotone_in_performance (config : BonusConfig) (type : SchemeType)
    (p p' : ℚ) (_hp : 0 ≤ p) (hpp' : p ≤ p')
    (hchain : List.Chain (· < ·) 0 (config.get type).thresholds)
    (hlen : (config.get type).rates.length =
      (config.get type).thresholds.length + 1)
    (hrates : ∀ r ∈ (config.get type).rates, 0 ≤ r) :
    calculateProgressiveBonus p type config ≤
      calculateProgressiveBonus p' type config := by
  have hne : (config.get type).rates ≠ [] := by
    intro h
    rw [h] at hlen
    simp at hlen
  have hlast : 0 ≤ (config.get type).rates.getLastD 0 :=
    hrates _ (getLastD_mem_of_ne_nil _ 0 hne)
  have hchain' : List.Chain (· ≤ ·) 0 (config.get type).thresholds :=
    List.Chain.imp (fun a b hab => le_of_lt hab) hchain
  exact tierLoop_mono _ _ _ p p' 0 hlast hrates hchain' hpp'

/-- Witness for C3 at the salary-relative default configuration,
performances 100000 ≤ 150000. -/
theorem C3_monotone_in_performance_witness :
    ((0 : ℚ) ≤ 100000 ∧ (100000 : ℚ) ≤ 150000 ∧
      List.Chain (· < ·) 0
        (((dynamicTierConfig (.numeric 40000) INITIAL_RATES).get .monthly).thresholds) ∧
      ((dynamicTierConfig (.numeric 40000) INITIAL_RATES).get .monthly).rates.length =
        ((dynamicTierConfig (.numeric 40000) INITIAL_RATES).get .monthly).thresholds.length + 1 ∧
      (∀ r ∈ ((dynamicTierConfig (.numeric 40000) INITIAL_RATES).get .monthly).rates, 0 ≤ r)) ∧
    calculateProgressiveBonus 100000 .monthly
        (dynamicTierConfig (.numeric 40000) INITIAL_RATES) ≤
      calculateProgressiveBonus 150000 .monthly
        (dynamicTierConfig (.numeric 40000) INITIAL_RATES) :=
  ⟨⟨by norm_num, by norm_num,
    by norm_num [dynamicTierConfig, BonusConfig.get, TIER_MULTIPLIERS,
      numberOr0, List.chain_cons],
    by norm_num [dynamicTierConfig, BonusConfig.get, TIER_MULTIPLIERS,
      INITIAL_RATES],
    by norm_num [dynamicTierConfig, BonusConfig.get, INITIAL_RATES,
      List.forall_mem_cons]⟩,
   C3_monotone_in_performance (dynamicTierConfig (.numeric 40000) INITIAL_RATES)
     .monthly 100000 150000 (by norm_num) (by norm_num)
     (by norm_num [dynamicTierConfig, BonusConfig.get, TIER_MULTIPLIERS,
       numberOr0, List.chain_cons])
     (by norm_num [dynamicTierConfig, BonusConfig.get, TIER_MULTIPLIERS,
       INITIAL_RATES])
     (by norm_num [dynamicTierConfig, BonusConfig.get, INITIAL_RATES,
       List.forall_mem_cons])⟩

/-- C4: zero performance yields zero bonus, and so does every negative
performance, for any configuration and either scheme: the loop exits on
its first iteration and the overflow branch is not taken. -/
theorem C4_zero_input_zero_bonus (config : BonusConfig) (type : SchemeType) :
    calculateProgressiveBonus 0 type config = 0 ∧
    ∀ p : ℚ, p < 0 → calculateProgressiveBonus p type config = 0 :=
  ⟨calcBonus_nonpos 0 type config le_rfl,
   fun p hp => calcBonus_nonpos p type config (le_of_lt hp)⟩

/-- Witness for C4 at the reduced-tier configuration and p = -5. -/
theorem C4_zero_input_zero_bonus_witness :
    calculateProgressiveBonus 0 .monthly INITIAL_TIER_CONFIG = 0 ∧
    ((-5 : ℚ) < 0 ∧
      calculateProgressiveBonus (-5) .monthly INITIAL_TIER_CONFIG = 0) :=
  ⟨(C4_zero_input_zero_bonus INITIAL_TIER_CONFIG .monthly).1,
   by norm_num,
   (C4_zero_input_zero_bonus INITIAL_TIER_CONFIG .monthly).2 (-5) (by norm_num)⟩

/-- The recommendation banner is decided by the sign of
`quarterly.total - monthly.total`; the three cases are mutually exclusive
by trichotomy of the order on ℚ. -/
theorem recommendation_cases (res : Results) :
    (res.monthly.total < res.quarterly.total ∧
      recommendation res =
        .quarterlyBetter (res.quarterly.total - res.monthly.total)) ∨
    (res.quarterly.total < res.monthly.total ∧
      recommendation res =
        .monthlyBetter (res.monthly.total - res.quarterly.total)) ∨
    (res.quarterly.total = res.monthly.total ∧ recommendation res = .equal) := by
  by_cases h1 : res.quarterly.total - res.monthly.total > 0
  · exact Or.inl ⟨by linarith, by simp [recommendation, h1]⟩
  · by_cases h2 : res.quarterly.total - res.monthly.total < 0
    · refine Or.inr (Or.inl ⟨by linarith, ?_⟩)
      have habs : |res.quarterly.total - res.monthly.total| =
          res.monthly.total - res.quarterly.total := by
        rw [abs_of_neg h2, neg_sub]
      simp [recommendation, h1, h2, habs]
    · refine Or.inr (Or.inr ⟨by linarith, ?_⟩)
      simp [recommendation, h1, h2]

/-- C5: for every input triple, the monthly-scheme total is the sum of
three independent monthly-config calls, the quarterly-scheme total is one
quarterly-config call on the raw sum, and the recommendation falls into
exactly one of the three outcomes (quarterly strictly greater with the
difference, monthly strictly greater with the absolute difference, or
exactly equal — the three conditions below are mutually exclusive). -/
theorem C5_scheme_comparison (i1 i2 i3 : InputValue) (cfg : BonusConfig) :
    (calculateResults i1 i2 i3 cfg).monthly.total =
        calculateProgressiveBonus (numberOr0 i1) .monthly cfg +
        calculateProgressiveBonus (numberOr0 i2) .monthly cfg +
        calculateProgressiveBonus (numberOr0 i3) .monthly cfg ∧
    (calculateResults i1 i2 i3 cfg).quarterly.total =
        calculateProgressiveBonus (numberOr0 i1 + numberOr0 i2 + numberOr0 i3)
          .quarterly cfg ∧
    (((calculateResults i1 i2 i3 cfg).monthly.total <
        (calculateResults i1 i2 i3 cfg).quarterly.total ∧
      recommendation (calculateResults i1 i2 i3 cfg) =
        .quarterlyBetter ((calculateResults i1 i2 i3 cfg).quarterly.total -
          (calculateResults i1 i2 i3 cfg).monthly.total)) ∨
    ((calculateResults i1 i2 i3 cfg).quarterly.total <
        (calculateResults i1 i2 i3 cfg).monthly.total ∧
      recommendation (calculateResults i1 i2 i3 cfg) =
        .monthlyBetter ((calculateResults i1 i2 i3 cfg).monthly.total -
          (calculateResults i1 i2 i3 cfg).quarterly.total)) ∨
    ((calculateResults i1 i2 i3 cfg).quarterly.total =
        (calculateResults i1 i2 i3 cfg).monthly.total ∧
      recommendation (calculateResults i1 i2 i3 cfg) = .equal)) := by
  refine ⟨rfl, rfl, ?_⟩
  exact recommendation_cases (calculateResults i1 i2 i3 cfg)

/-- C6: in the salary-relative variant, the derived monthly thresholds
are `[3s, 5s, 10s]` and the quarterly thresholds `[9s, 15s, 30s]`; a rate
change at scheme `t`, index `i` leaves every other rate cell of both
schemes and all derived thresholds unchanged. -/
theorem C6_threshold_derivation_and_rate_frame (s : ℚ) (tr : TierRates) :
    (dynamicTierConfig (.numeric s) tr).monthly.thresholds = [3 * s, 5 * s, 10 * s] ∧
    (dynamicTierConfig (.numeric s) tr).quarterly.thresholds = [9 * s, 15 * s, 30 * s] ∧
    ∀ (t : SchemeType) (i : ℕ) (newRate : ℚ),
      (∀ (t' : SchemeType) (j : ℕ), t' ≠ t ∨ j ≠ i →
        ((handleRateChange t i newRate tr).get t')[j]? = (tr.get t')[j]?) ∧
      (dynamicTierConfig (.numeric s) (handleRateChange t i newRate tr)).monthly.thresholds =
        (dynamicTierConfig (.numeric s) tr).monthly.thresholds ∧
      (dynamicTierConfig (.numeric s) (handleRateChange t i newRate tr)).quarterly.thresholds =
        (dynamicTierConfig (.numeric s) tr).quarterly.thresholds := by
  refine ⟨?_, ?_, ?_⟩
  · simp [dynamicTierConfig, TIER_MULTIPLIERS, numberOr0]
  · simp only [dynamicTierConfig, TIER_MULTIPLIERS, numberOr0, List.map_cons,
      List.map_nil]
    ring_nf
  · intro t i newRate
    refine ⟨?_, rfl, rfl⟩
    intro t' j hne
    cases t <;> cases t' <;> simp only [handleRateChange, TierRates.get] <;>
      rcases hne with hne | hne
    · exact absurd rfl hne
    · exact List.getElem?_set_ne (fun h => hne h.symm)
    · exact absurd rfl hne
    · exact List.getElem?_set_ne (fun h => hne h.symm)

/-- Witness for C6 at salary 40000, editing monthly rate 0 and reading
back monthly rate 1. -/
theorem C6_threshold_derivation_and_rate_frame_witness :
    (SchemeType.monthly ≠ SchemeType.monthly ∨ (1 : ℕ) ≠ 0) ∧
    ((handleRateChange .monthly 0 0.07 INITIAL_RATES).get .monthly)[1]? =
      (INITIAL_RATES.get .monthly)[1]? :=
  ⟨Or.inr (by norm_num),
   (((C6_threshold_derivation_and_rate_frame 40000 INITIAL_RATES).2.2
      .monthly 0 0.07).1 .monthly 1 (Or.inr (by norm_num)))⟩

/-- C7: the spec claims every variant keeps an independent top-tier rate
(`rates` one longer than `thresholds`).  The reduced-tier variant does
not: its `INITIAL_TIER_CONFIG` rates arrays have the same length as the
thresholds arrays, so the overflow rate is the very entry `rates[2]` of
the third bounded tier. -/
theorem C7_counterexample :
    INITIAL_TIER_CONFIG.monthly.rates.length ≠
      INITIAL_TIER_CONFIG.monthly.thresholds.length + 1 := by
  decide

/-- C7 (amended): the salary-relative variant does keep an independent
top-tier rate — four rates against three thresholds, for both schemes and
any salary — whereas the reduced-tier variant has exactly as many rates
as thresholds and its overflow rate is the third tier's entry
`rates[2]`. -/
theorem C7_top_rate_independence :
    (∀ salary : InputValue,
      (dynamicTierConfig salary INITIAL_RATES).monthly.rates.length =
          (dynamicTierConfig salary INITIAL_RATES).monthly.thresholds.length + 1 ∧
      (dynamicTierConfig salary INITIAL_RATES).quarterly.rates.length =
          (dynamicTierConfig salary INITIAL_RATES).quarterly.thresholds.length + 1) ∧
    INITIAL_TIER_CONFIG.monthly.rates.length =
        INITIAL_TIER_CONFIG.monthly.thresholds.length ∧
    INITIAL_TIER_CONFIG.quarterly.rates.length =
        INITIAL_TIER_CONFIG.quarterly.thresholds.length ∧
    INITIAL_TIER_CONFIG.monthly.rates.getLastD 0 =
        (INITIAL_TIER_CONFIG.monthly.rates).getD 2 0 ∧
    INITIAL_TIER_CONFIG.quarterly.rates.getLastD 0 =
        (INITIAL_TIER_CONFIG.quarterly.rates).getD 2 0 := by
  refine ⟨fun salary => ⟨?_, ?_⟩, rfl, rfl, rfl, rfl⟩ <;>
    simp [dynamicTierConfig, TIER_MULTIPLIERS, INITIAL_RATES]

/-- C8: the caller coerces each performance field with `Number(x) || 0`
before any calculator call: a malformed (NaN) or empty field becomes 0,
the results equal those for a literal 0, its per-month bonus is 0, and
the computation is a total function — nothing is rejected or raised. -/
theorem C8_malformed_input_coerced (i2 i3 : InputValue) (cfg : BonusConfig) :
    numberOr0 .malformed = 0 ∧ numberOr0 .empty = 0 ∧
    calculateResults .malformed i2 i3 cfg =
      calculateResults (.numeric 0) i2 i3 cfg ∧
    (calculateResults .malformed i2 i3 cfg).monthly.bonus1 = 0 :=
  ⟨rfl, rfl, rfl, calcBonus_nonpos 0 .monthly cfg le_rfl⟩

/-- C9: with an empty or non-numeric salary field the salary is coerced
to 0, every derived threshold is 0, and any strictly positive performance
is paid entirely at the top-tier rate `rates[3]`. -/
theorem C9_zero_salary_all_top_rate (salary : InputValue)
    (hsal : salary = .empty ∨ salary = .malformed)
    (r0 r1 r2 r3 : ℚ) (qrates : List ℚ) (p : ℚ) (hp : 0 < p) :
    (dynamicTierConfig salary ⟨[r0, r1, r2, r3], qrates⟩).monthly.thresholds =
        [0, 0, 0] ∧
    (dynamicTierConfig salary ⟨[r0, r1, r2, r3], qrates⟩).quarterly.thresholds =
        [0, 0, 0] ∧
    calculateProgressiveBonus p .monthly
        (dynamicTierConfig salary ⟨[r0, r1, r2, r3], qrates⟩) = p * r3 := by
  have hs : numberOr0 salary = 0 := by
    rcases hsal with h | h <;> subst h <;> rfl
  have hple : ¬p ≤ 0 := not_le.mpr hp
  refine ⟨?_, ?_, ?_⟩
  · simp [dynamicTierConfig, TIER_MULTIPLIERS, hs]
  · simp [dynamicTierConfig, TIER_MULTIPLIERS, hs]
  · simp [calculateProgressiveBonus, BonusConfig.get, dynamicTierConfig,
      TIER_MULTIPLIERS, hs, tierLoop, hple, hp, min_eq_right hp.le,
      List.getLastD]

/-- Witness for C9 with empty salary, the initial rates and p = 7. -/
theorem C9_zero_salary_all_top_rate_witness :
    ((InputValue.empty = InputValue.empty ∨
        InputValue.empty = InputValue.malformed) ∧ (0 : ℚ) < 7) ∧
    calculateProgressiveBonus 7 .monthly
        (dynamicTierConfig .empty
          ⟨[0.03, 0.05, 0.10, 0.15], [0.03, 0.05, 0.10, 0.15]⟩) = 7 * 0.15 :=
  ⟨⟨Or.inl rfl, by norm_num⟩,
   (C9_zero_salary_all_top_rate .empty (Or.inl rfl) 0.03 0.05 0.10 0.15
     [0.03, 0.05, 0.10, 0.15] 7 (by norm_num)).2.2⟩

/-- Setting one entry of a list of non-negative rationals to a
non-negative value keeps every entry non-negative. -/
theorem set_nonneg (l : List ℚ) (i : ℕ) (a : ℚ) (hl : ∀ r ∈ l, 0 ≤ r)
    (ha : 0 ≤ a) : ∀ r ∈ l.set i a, 0 ≤ r := by
  intro r hr
  rcases List.mem_or_eq_of_mem_set hr with h | h
  · exact hl r h
  · exact h ▸ ha

/-- `handleRateChange` with a non-negative rate preserves
non-negativity of all rates. -/
theorem handleRateChange_nonneg (t : SchemeType) (i : ℕ) (a : ℚ)
    (tr : TierRates) (h : allRatesNonneg tr) (ha : 0 ≤ a) :
    allRatesNonneg (handleRateChange t i a tr) := by
  cases t with
  | monthly => exact ⟨set_nonneg _ _ _ h.1 ha, h.2⟩
  | quarterly => exact ⟨h.1, set_nonneg _ _ _ h.2 ha⟩

/-- A single `TierTable.handleInputChange` preserves non-negativity of
all rates: `NaN` and negative entries leave the state untouched, and an
accepted entry writes `q / 100 ≥ 0`. -/
theorem handleInputChange_nonneg (t : SchemeType) (i : ℕ) (v : Option ℚ)
    (tr : TierRates) (h : allRatesNonneg tr) :
    allRatesNonneg (TierTable.handleInputChange t i v tr) := by
  match v with
  | none => exact h
  | some q =>
      by_cases hq : 0 ≤ q
      · simpa [TierTable.handleInputChange, hq] using
          handleRateChange_nonneg t i (q / 100) tr h
            (div_nonneg hq (by norm_num))
      · simpa [TierTable.handleInputChange, hq] using h

/-- Any sequence of rate-cell edits preserves non-negativity. -/
theorem applyEdits_nonneg (edits : List RateEdit) (tr : TierRates)
    (h : allRatesNonneg tr) : allRatesNonneg (applyEdits edits tr) := by
  induction edits generalizing tr with
  | nil => exact h
  | cons e es ih => exact ih _ (handleInputChange_nonneg e.1 e.2.1 e.2.2 tr h)

/-- The initial rates of the salary-relative variant are all
non-negative. -/
theorem INITIAL_RATES_nonneg : allRatesNonneg INITIAL_RATES := by
  constructor <;> simp [INITIAL_RATES, List.forall_mem_cons] <;> norm_num

/-- C10: a rate edit is applied only when the entered text parses to a
number ≥ 0 — a `NaN` (`none`) or negative entry leaves the state
untouched — and consequently every rate of both schemes stays
non-negative after any sequence of edits starting from the initial
configuration. -/
theorem C10_rate_edits_keep_nonneg :
    (∀ (t : SchemeType) (i : ℕ) (tr : TierRates),
        TierTable.handleInputChange t i none tr = tr) ∧
    (∀ (t : SchemeType) (i : ℕ) (q : ℚ) (tr : TierRates), q < 0 →
        TierTable.handleInputChange t i (some q) tr = tr) ∧
    ∀ edits : List RateEdit, allRatesNonneg (applyEdits edits INITIAL_RATES) := by
  refine ⟨fun t i tr => rfl, fun t i q tr hq => ?_,
    fun edits => applyEdits_nonneg edits INITIAL_RATES INITIAL_RATES_nonneg⟩
  simp [TierTable.handleInputChange, not_le.mpr hq]

/-- Witness for C10: the negative entry -3 is silently ignored. -/
theorem C10_rate_edits_keep_nonneg_witness :
    (-3 : ℚ) < 0 ∧
    TierTable.handleInputChange .monthly 1 (some (-3)) INITIAL_RATES =
      INITIAL_RATES :=
  ⟨by norm_num,
   C10_rate_edits_keep_nonneg.2.1 .monthly 1 (-3) INITIAL_RATES (by norm_num)⟩
